import Mathlib

/-!
Verification of the oscar.py storage-access library (file `oscar.py`) against
its natural-language specification.

Python 2 byte strings (`str`) are embedded as Lean `String`s whose characters
are the bytes (every byte value 0..255 is a valid scalar, so the embedding is
exact for the data handled here).  Machine integers do not overflow in any of
the embedded functions (Python integers are unbounded), so `Nat`/`Int` are
used directly.  Python exceptions are embedded as an explicit error type
`PyErr` and `Except`/`Option` results.
-/

/-- The Python exception kinds that the embedded code can raise.
`objectNotFound` embeds the library's `ObjectNotFound(KeyError)` class
(oscar.py 73-74). -/
inductive PyErr where
  | valueError
  | typeError
  | indexError
  | objectNotFound
  | overflowError
deriving Repr, DecidableEq

/-- `True`-as-`Bool` test that an `Except` is a success. -/
def isOkE {α : Type} : Except PyErr α → Bool
  | .ok _ => true
  | .error _ => false

/-- Embeds Python `s.startswith(pre)` (byte-wise prefix test). -/
def pyStartsWith (s pre : String) : Bool :=
  pre.data.isPrefixOf s.data

/-- One step of Python `s.split(sep, 1)` for a non-empty separator `sep`:
`none` when `sep` does not occur in the list, otherwise the parts before and
after the first occurrence. -/
def splitOnceList (sep : List Char) : List Char → Option (List Char × List Char)
  | [] => none
  | c :: rest =>
    if sep ≠ [] ∧ sep.isPrefixOf (c :: rest) then
      some ([], (c :: rest).drop sep.length)
    else
      (splitOnceList sep rest).map (fun p => (c :: p.1, p.2))

/-- Embeds Python `s.split(sep, 1)`: two pieces when `sep` occurs, `none`
otherwise (the Python call returns a 1-element list then; every call site
unpacks two values, raising `ValueError` in that case). -/
def pySplitOnce (s sep : String) : Option (String × String) :=
  (splitOnceList sep.data s.data).map (fun p => (String.mk p.1, String.mk p.2))

/-- Repeated splitting, with fuel.  Each recursive call strictly shortens the
list when `sep` is non-empty, so fuel `l.length + 1` is never exhausted. -/
def splitAllList (sep : List Char) : Nat → List Char → List (List Char)
  | 0, l => [l]
  | fuel + 1, l =>
    match splitOnceList sep l with
    | none => [l]
    | some (a, b) => a :: splitAllList sep fuel b

/-- Embeds Python `s.split(sep)` for a non-empty separator: splits at every
non-overlapping occurrence, keeping empty pieces (`"".split(";") = [""]`). -/
def pySplit (s sep : String) : List String :=
  (splitAllList sep.data (s.data.length + 1) s.data).map String.mk

/-- Embeds Python `s.split()` restricted to the space-separated strings the
library feeds it (timestamps such as `"1337145807 +1100"` contain no other
whitespace): split on spaces and drop empty tokens (`"".split() = []`). -/
def pySplitWs (s : String) : List String :=
  (pySplit s " ").filter (fun t => t != "")

/-- Last-occurrence split on a single character, one step of Python
`s.rsplit(sep, n)`. -/
def rsplitOnceList (sep : Char) : List Char → Option (List Char × List Char)
  | [] => none
  | c :: rest =>
    match rsplitOnceList sep rest with
    | some (a, b) => some (c :: a, b)
    | none => if c = sep then some ([], rest) else none

/-- Embeds Python `value.rsplit(" ", 2)`: at most two splits, taken from the
right. -/
def pyRsplit2 (s : String) : List String :=
  match rsplitOnceList ' ' s.data with
  | none => [s]
  | some (a, c) =>
    match rsplitOnceList ' ' a with
    | none => [String.mk a, String.mk c]
    | some (a2, b) => [String.mk a2, String.mk b, String.mk c]

/-- Replacement of every non-overlapping occurrence, with fuel; each step
consumes at least one character, so fuel `s.length` is never exhausted. -/
def pyReplaceLoop (pat rep : List Char) : Nat → List Char → List Char
  | _, [] => []
  | 0, l => l
  | fuel + 1, c :: rest =>
    if pat ≠ [] ∧ pat.isPrefixOf (c :: rest) then
      rep ++ pyReplaceLoop pat rep fuel ((c :: rest).drop pat.length)
    else
      c :: pyReplaceLoop pat rep fuel rest

/-- Embeds Python `s.replace(pat, rep)` (all occurrences, left to right) for a
non-empty pattern. -/
def pyReplaceAll (s pat rep : String) : String :=
  String.mk (pyReplaceLoop pat.data rep.data s.data.length s.data)

/-- Embeds Python `s.replace(pat, rep, 1)` (first occurrence only) for a
non-empty pattern. -/
def pyReplaceOnce (s pat rep : String) : String :=
  String.mk (pyReplaceOnceList pat.data rep.data s.data)
where
  pyReplaceOnceList (pat rep : List Char) : List Char → List Char
    | [] => []
    | c :: rest =>
      if pat ≠ [] ∧ pat.isPrefixOf (c :: rest) then
        rep ++ (c :: rest).drop pat.length
      else
        c :: pyReplaceOnceList pat rep rest

/-- Value of a non-empty all-digit character list, `none` otherwise. -/
def digitsVal (l : List Char) : Option Nat :=
  if l ≠ [] ∧ l.all Char.isDigit then
    some (l.foldl (fun a c => 10 * a + (c.toNat - 48)) 0)
  else none

/-- Embeds Python `int(s)` on the strings the library feeds it: an optional
sign followed by decimal digits (call sites pass whitespace-free tokens, so
the whitespace stripping of Python `int` never fires).  `none` embeds the
`ValueError` Python raises. -/
def pyInt (s : String) : Option Int :=
  match s.data with
  | '-' :: rest => (digitsVal rest).map (fun n => -(n : Int))
  | '+' :: rest => (digitsVal rest).map (fun n => (n : Int))
  | l => (digitsVal l).map (fun n => (n : Int))

/-- Embeds `unber`'s accumulator loop (oscar.py 96-104): each byte contributes
its low seven bits; a clear high bit emits the accumulated value. -/
def unberLoop : Nat → List Char → List Nat
  | _, [] => []
  | acc, c :: rest =>
    let b := c.toNat
    let acc2 := (acc <<< 7) + (b &&& 0x7f)
    if b &&& 0x80 = 0 then acc2 :: unberLoop 0 rest
    else unberLoop acc2 rest

/-- Embeds `unber(s)` (oscar.py 77-104): Perl BER unpacking of a byte string
into a list of non-negative integers.  The Python function contains no
`raise`; it is total. -/
def unber (s : String) : List Nat :=
  unberLoop 0 s.data

/-- Embeds the header-scanning `while` loop of `lzf_length` (oscar.py
133-136).  `mask` strictly decreases (128, 32, 16, 8, 4, 2, 1, 0), so fuel 9
is never exhausted; the mask shift `mask >>= 1 + (mask == 0x80)` is written
as division. -/
def lzfLoop (lower csize : Nat) : Nat → Nat → Nat → Nat × Nat
  | 0, mask, start => (mask, start)
  | fuel + 1, mask, start =>
    if mask ≠ 0 ∧ start < csize ∧ lower &&& mask ≠ 0 then
      lzfLoop lower csize fuel (if mask = 0x80 then mask / 4 else mask / 2) (start + 1)
    else (mask, start)

/-- Embeds `lzf_length(raw_data)` (oscar.py 107-144): parse the variable
length uncompressed-size header of a `Compress::LZF` frame, returning
`(header_size, uncompressed_length)`; `ValueError` on empty input, corrupted
header, or zero size. -/
def lzf_length (raw : String) : Except PyErr (Nat × Nat) :=
  match raw.data with
  | [] => .error .valueError
  | c0 :: _ =>
    let lower := c0.toNat
    let csize := raw.data.length
    let ms := lzfLoop lower csize 9 0x80 1
    let mask := ms.1
    let start := ms.2
    if mask = 0 ∨ csize < start then .error .valueError
    else
      let usize0 := lower &&& (mask - 1)
      let usize := (List.range (start - 1)).foldl
        (fun u i => (u <<< 6) + ((raw.data.getD (i + 1) ' ').toNat &&& 0x3f)) usize0
      if usize = 0 then .error .valueError
      else .ok (start, usize)

/-- Embeds `decomp(raw_data)` (oscar.py 147-162) applied to the result of
`read_tch` (which is `None` for an absent key, embedded as `none`).  The raw
LZF decompressor `lzf.decompress` is an external C library, so it is a
parameter `lzfD`; none of the verified properties depend on it. -/
def decomp (lzfD : String → Nat → String) (raw : Option String) : Except PyErr String :=
  match raw with
  | none => .ok ""
  | some s =>
    match s.data with
    | [] => .ok ""
    | c :: rest =>
      if c = '\x00' then .ok (String.mk rest)
      else
        match lzf_length s with
        | .error e => .error e
        | .ok su => .ok (lzfD (String.mk (s.data.drop su.1)) su.2)

/-- Lowercase hex digit byte for a value below 16 (`0..9a..f`). -/
def hexDigitChar (n : Nat) : Char :=
  Char.ofNat (if n < 10 then 48 + n else 87 + n)

/-- Embeds Python 2 `s.encode('hex')`: two lowercase hex digits per byte. -/
def encodeHexList (l : List Char) : List Char :=
  l.foldr (fun c acc => hexDigitChar (c.toNat / 16) :: hexDigitChar (c.toNat % 16) :: acc) []

/-- Value of one hex digit character (Python accepts both cases). -/
def hexVal (c : Char) : Option Nat :=
  if '0' ≤ c ∧ c ≤ '9' then some (c.toNat - 48)
  else if 'a' ≤ c ∧ c ≤ 'f' then some (c.toNat - 87)
  else if 'A' ≤ c ∧ c ≤ 'F' then some (c.toNat - 55)
  else none

/-- Embeds Python 2 `s.decode('hex')`: pairs of hex digits to bytes; `none`
embeds the error on odd length or a non-hex digit. -/
def decodeHexList : List Char → Option (List Char)
  | [] => some []
  | [_] => none
  | a :: b :: rest =>
    match hexVal a, hexVal b, decodeHexList rest with
    | some x, some y, some r => some (Char.ofNat (16 * x + y) :: r)
    | _, _, _ => none

/-- 20-byte chunking with fuel (`range(0, len(raw_data), 20)` in `slice20`);
each step drops 20 characters, so fuel `l.length` is never exhausted. -/
def chunks20 : Nat → List Char → List (List Char)
  | _, [] => []
  | 0, l => [l]
  | fuel + 1, l => l.take 20 :: chunks20 fuel (l.drop 20)

/-- Embeds `slice20(raw_data)` (oscar.py 176-183): `None` (an absent key)
gives the empty tuple; otherwise the value is cut into 20-byte chunks, each
hex encoded. -/
def slice20 (raw : Option String) : List String :=
  match raw with
  | none => []
  | some s => (chunks20 s.data.length s.data).map (fun l => String.mk (encodeHexList l))

/-- The identity fields a constructed `GitObject` (and its subclasses `Commit`,
`Tree`, `Blob`, `Tag`, which share `__init__`) carries: `sha` (40 hex), `bin_sha`
(20 bytes) and the `key` used by `_Base.__eq__` / `__hash__`. -/
structure GitObjectRepr where
  sha : String
  bin_sha : String
  key : String
deriving Repr, DecidableEq

/-- Embeds `GitObject.__init__(sha)` (oscar.py 380-398).  A 40-character
argument is taken as hex, a 20-character one as binary; anything else raises
`ValueError` (embedded as `none`, together with the hex-decode error).

Line 397 sets `self.key = self.sha`, but line 398 then calls
`_Base.__init__(sha)` with the ORIGINAL argument, which overwrites `self.key`
with that argument (oscar.py 296-300).  The resulting `key` is therefore the
raw constructor argument, hex or binary, whichever was passed. -/
def gitObjectInit (sha : String) : Option GitObjectRepr :=
  if sha.data.length = 40 then
    (decodeHexList sha.data).map
      (fun bin => { sha := sha, bin_sha := String.mk bin, key := sha })
  else if sha.data.length = 20 then
    some { sha := String.mk (encodeHexList sha.data), bin_sha := sha, key := sha }
  else none

/-- Embeds `_Base.__eq__` (oscar.py 308-318) for two objects of the same
class (the `isinstance` and `.type` checks hold): equality of `self.key`. -/
def baseEq (a b : GitObjectRepr) : Bool :=
  a.key == b.key

/-- Embeds `GitObject.__init__` (oscar.py 380-398) with its exception kinds
(the same construction as `gitObjectInit`, which drops the kind): a
40-character argument with a non-hex digit raises `TypeError` (Python 2
`str.decode('hex')`: `Non-hexadecimal digit found`), any other length than
40 or 20 raises `ValueError("Invalid SHA1 hash: ...")`. -/
def gitObjectInitE (sha : String) : Except PyErr GitObjectRepr :=
  if sha.data.length = 40 then
    match decodeHexList sha.data with
    | some bin => .ok { sha := sha, bin_sha := String.mk bin, key := sha }
    | none => .error .typeError
  else if sha.data.length = 20 then
    .ok { sha := String.mk (encodeHexList sha.data), bin_sha := sha, key := sha }
  else .error .valueError

/-- Embeds the `PATHS` dictionary (oscar.py 20-70): data type to
`(path template, prefix bit length)`. -/
def PATHS : List (String × String × Nat) :=
  [ ("commit_sequential_idx", "/data/All.blobs/commit_{key}.idx", 7),
    ("commit_sequential_bin", "/data/All.blobs/commit_{key}.bin", 7),
    ("tree_sequential_idx", "/data/All.blobs/blob_{key}.idx", 7),
    ("tree_sequential_bin", "/data/All.blobs/blob_{key}.bin", 7),
    ("commit_random", "/fast/All.sha1c/commit_{key}.tch", 7),
    ("tree_random", "/fast/All.sha1c/tree_{key}.tch", 7),
    ("blob_offset", "/fast/All.sha1o/sha1.blob_{key}.tch", 7),
    ("blob_data", "/data/All.blobs/blob_{key}.bin", 7),
    ("commit_projects", "/da0_data/basemaps/c2pFullP.{key}.tch", 5),
    ("commit_children", "/da0_data/basemaps/c2ccFullP.{key}.tch", 5),
    ("commit_blobs", "/da0_data/basemaps/c2bFullP.{key}.tch", 5),
    ("commit_files", "/da0_data/basemaps/c2fFullP.{key}.tch", 5),
    ("project_commits", "/da0_data/basemaps/p2cFullP.{key}.tch", 5),
    ("author_commits", "/da0_data/basemaps/a2cFullP.{key}.tch", 5),
    ("author_projects", "/da0_data/basemaps/a2pFullP.{key}.tch", 5),
    ("author_trpath", "/da0_data/basemaps/a2trpO.tch", 5),
    ("blob_commits", "/da0_data/basemaps/b2cFullP.{key}.tch", 5),
    ("blob_authors", "/da0_data/basemaps/b2aFullP.{key}.tch", 5),
    ("file_commits", "/da0_data/basemaps/f2cFullP.{key}.tch", 5),
    ("file_blobs", "/da0_data/basemaps/f2bFullP.{key}.tch", 5),
    ("commit_time_author", "/da0_data/basemaps/c2taFullP.{key}.tch", 5),
    ("project_authors", "/da0_data/basemaps/p2aFullP.{key}.tch", 5),
    ("blob_files", "/da0_data/basemaps/b2fFullP.{key}.tch", 5),
    ("commit_head", "/da0_data/basemaps/c2hFullO.{key}.tch", 5),
    ("blob_index_line", "/fast/All.sha1/sha1.blob_{key}.tch", 7),
    ("tree_index_line", "/fast/All.sha1/sha1.tree_{key}.tch", 7),
    ("commit_index_line", "/fast/All.sha1/sha1.commit_{key}.tch", 7),
    ("tag_index_line", "/fast/All.sha1/sha1.tag_{key}.tch", 7) ]

/-- Embeds `path.format(key=shard)` for the `PATHS` templates: the `{key}`
placeholder is replaced by the decimal shard index. -/
def formatKey (template : String) (shard : Nat) : String :=
  pyReplaceAll template "{key}" (toString shard)

/-- Embeds the path computation of `GitObject.all()` (oscar.py 356-363) for a
git object type `ty` and one shard index: the formatted `.idx` and `.bin`
paths that the scan opens, with the shard count `2 ** prefix_length` read
from the same `PATHS` entries. -/
def gitAllShardPaths (ty : String) (shard : Nat) : Option (String × String) :=
  match PATHS.lookup (ty ++ "_sequential_idx"), PATHS.lookup (ty ++ "_sequential_bin") with
  | some it, some bt => some (formatKey it.1 shard, formatKey bt.1 shard)
  | _, _ => none

/-- Embeds `Blob.position` (oscar.py 495-502) applied to the `read_tch`
result for this blob's key.  `read_tch` (oscar.py 259-268) returns the stored
value, or `None` on any failure (its `except:` clause swallows the `KeyError`
of an absent key; the commented-out `ObjectNotFound` raise is dead code).

For an absent key the value is `None` and `unber(None)` raises `TypeError`
(iterating `None`), which the `except ValueError` handler does not catch.
For a present value, unpacking `offset, length = unber(...)` raises
`ValueError` unless exactly two integers were decoded, and that is converted
to `ObjectNotFound`. -/
def blobPosition (raw : Option String) : Except PyErr (Nat × Nat) :=
  match raw with
  | none => .error .typeError
  | some s =>
    match unber s with
    | [o, l] => .ok (o, l)
    | _ => .error .objectNotFound

/-- Embeds `Blob.commit_shas` (oscar.py 513-520): `slice20` of the
`blob_commits` read. -/
def blobCommitShas (raw : Option String) : List String :=
  slice20 raw

/-- Embeds `Commit.child_shas` (oscar.py 922-931): `slice20` of the
`commit_children` read. -/
def commitChildShas (raw : Option String) : List String :=
  slice20 raw

/-- Embeds `Project.commit_shas` (oscar.py 1091-1101): `slice20` of the
`project_commits` read. -/
def projectCommitShas (raw : Option String) : List String :=
  slice20 raw

/-- Embeds `Author.commit_shas` (oscar.py 1333-1347): `slice20` of the
`author_commits` read. -/
def authorCommitShas (raw : Option String) : List String :=
  slice20 raw

/-- Embeds `File.commit_shas` (oscar.py 1267-1288): `slice20` of the
`file_commits` read. -/
def fileCommitShas (raw : Option String) : List String :=
  slice20 raw

/-- Embeds `(data and data.split(";")) or []`: the false-y empty string gives
the empty list, anything else is split on `";"`. -/
def semiSplitOrEmpty (data : String) : List String :=
  if data = "" then [] else pySplit data ";"

/-- Embeds the comprehension of `Commit.project_names` (oscar.py 895-914) on
the decompressed relation value: keep entries that are non-empty and not the
`EMPTY` sentinel. -/
def commitProjectNamesOf (data : String) : List String :=
  (semiSplitOrEmpty data).filter (fun p => p != "" && p != "EMPTY")

/-- Embeds the comprehension of `Commit.files` (oscar.py 991-995) on the
decompressed relation value. -/
def commitFilesOf (data : String) : List String :=
  (semiSplitOrEmpty data).filter (fun f => f != "" && f != "EMPTY")

/-- Embeds the body of `Commit.changed_file_names` (oscar.py 955-958) on the
decompressed relation value: the split is returned unfiltered. -/
def commitChangedFileNamesOf (data : String) : List String :=
  semiSplitOrEmpty data

/-- Embeds the comprehension of `Project.author_names` (oscar.py 1246-1250)
on the decompressed relation value. -/
def projectAuthorNamesOf (data : String) : List String :=
  (semiSplitOrEmpty data).filter (fun a => a != "" && a != "EMPTY")

/-- Embeds the comprehension of `Author.project_names` (oscar.py 1361-1368)
on the decompressed relation value. -/
def authorProjectNamesOf (data : String) : List String :=
  (semiSplitOrEmpty data).filter (fun p => p != "" && p != "EMPTY")

/-- Embeds `Commit.project_names` end to end: `decomp` of the `read_tch`
result, then the comprehension. -/
def commitProjectNames (lzfD : String → Nat → String) (raw : Option String) :
    Except PyErr (List String) :=
  (decomp lzfD raw).map commitProjectNamesOf

/-- Embeds `Commit.changed_file_names` end to end. -/
def commitChangedFileNames (lzfD : String → Nat → String) (raw : Option String) :
    Except PyErr (List String) :=
  (decomp lzfD raw).map commitChangedFileNamesOf

/-- Embeds `Commit.files` end to end. -/
def commitFiles (lzfD : String → Nat → String) (raw : Option String) :
    Except PyErr (List String) :=
  (decomp lzfD raw).map commitFilesOf

/-- Embeds `Project.author_names` end to end. -/
def projectAuthorNames (lzfD : String → Nat → String) (raw : Option String) :
    Except PyErr (List String) :=
  (decomp lzfD raw).map projectAuthorNamesOf

/-- Embeds `Author.project_names` end to end. -/
def authorProjectNames (lzfD : String → Nat → String) (raw : Option String) :
    Except PyErr (List String) :=
  (decomp lzfD raw).map authorProjectNamesOf

/-- Embeds the `toUrlMap` dictionary of `Project.toURL` (oscar.py
1217-1230), in source order.  CPython dict iteration order is unspecified,
but at most one entry can match any given URI (no key plus `"_"` is a prefix
of another key plus `"_"`), so the order never affects the result. -/
def toUrlMap : List (String × String) :=
  [ ("bb", "bitbucket.org"), ("gl", "gitlab.org"),
    ("android.googlesource.com", "android.googlesource.com"),
    ("bioconductor.org", "bioconductor.org"),
    ("drupal.com", "git.drupal.org"), ("git.eclipse.org", "git.eclipse.org"),
    ("git.kernel.org", "git.kernel.org"),
    ("git.postgresql.org", "git.postgresql.org"),
    ("git.savannah.gnu.org", "git.savannah.gnu.org"),
    ("git.zx2c4.com", "git.zx2c4.com"),
    ("gitlab.gnome.org", "gitlab.gnome.org"),
    ("kde.org", "anongit.kde.org"),
    ("repo.or.cz", "repo.or.cz"),
    ("salsa.debian.org", "salsa.debian.org"),
    ("sourceforge.net", "git.code.sf.net/p") ]

/-- Embeds `Project.toURL` (oscar.py 1209-1244).  The loop finds a map entry
whose key plus `"_"` starts the URI, provided the URI has at least two
underscores or the key is `sourceforge.net`; the matched entry replaces the
prefix, otherwise `github.com/` is prepended.  The final
`p_name.replace('_', '/', 1)` runs on BOTH paths. -/
def toURL (uri : String) : String :=
  let found := toUrlMap.find? (fun kv =>
    pyStartsWith uri (kv.1 ++ "_") &&
      (decide (2 ≤ uri.data.count '_') || kv.1 == "sourceforge.net"))
  let p_name :=
    match found with
    | some kv => pyReplaceAll uri (kv.1 ++ "_") (kv.2 ++ "/")
    | none => "github.com/" ++ uri
  "https://" ++ pyReplaceOnce p_name "_" "/"

/-- The value `datetime.fromtimestamp(ts, CommitTimezone(hours, minutes))`
carries in this embedding: the epoch second and the fixed timezone offset
components passed to `CommitTimezone` (oscar.py 185-205, 233). -/
structure PyDateTime where
  epoch : Int
  tzHours : Int
  tzMinutes : Int
deriving Repr, DecidableEq

/-- Embeds `datetime.fromtimestamp(ts, CommitTimezone(hours, minutes))`
(oscar.py 233) on CPython 2.7 / 64-bit Unix, where the library runs:

* `utcfromtimestamp` accepts exactly the epochs whose UTC datetime lies in
  `0001-01-01 00:00:00 .. 9999-12-31 23:59:59`, i.e.
  `-62135596800 <= ts <= 253402300799`; outside it raises `ValueError`
  (year out of range).
* the returned `utcoffset` is bounds-checked: it must be strictly between
  `-timedelta(hours=24)` and `timedelta(hours=24)` (and a whole number of
  minutes, which `CommitTimezone` always is), else `ValueError`.
* the default `tzinfo.fromutc` then adds the offset to the UTC datetime;
  if the sum leaves the datetime range this addition raises
  `OverflowError`, which is NOT a `ValueError` and escapes the caller's
  handler. -/
def datetime_fromtimestamp (e tzh tzm : Int) : Except PyErr PyDateTime :=
  if e < -62135596800 ∨ 253402300799 < e then .error .valueError
  else if 60 * tzh + tzm ≤ -1440 ∨ 1440 ≤ 60 * tzh + tzm then .error .valueError
  else if e + 60 * (60 * tzh + tzm) < -62135596800 ∨
      253402300799 < e + 60 * (60 * tzh + tzm) then
    .error .overflowError
  else .ok ⟨e, tzh, tzm⟩

/-- Embeds `parse_commit_date(timestamp)` (oscar.py 208-242), with the wall
clock `time.time()` passed in as `now`.  `ok none` embeds the `None` return
(invalid number, a `ValueError` from `datetime.fromtimestamp` — out-of-range
epoch or out-of-bounds zone offset, both inside the `try` — or a future
timestamp); `error` embeds an uncaught exception:
`ts, tz = timestamp.split()` raises `ValueError` unless there are exactly two
tokens, and `tz[-2]` raises `IndexError` on a short zone (unreachable:
`int(tz[-4:-2])` fails first on any zone shorter than 3).  The slices follow
Python clamping: `tz[-4:-2]` is `tz[max(L-4,0):max(L-2,0)]`. -/
def parse_commit_date (timestamp : String) (now : Int) : Except PyErr (Option PyDateTime) :=
  match pySplitWs timestamp with
  | [ts, tz] =>
    let sign : Int := if pyStartsWith tz "-" then -1 else 1
    match pyInt ts with
    | none => .ok none
    | some e =>
      let L := tz.data.length
      let hourChars := (tz.data.drop (L - 4)).take ((L - 2) - (L - 4))
      match pyInt (String.mk hourChars) with
      | none => .ok none
      | some hEnc =>
        if L < 2 then .error .indexError
        else
          match pyInt (String.mk [tz.data.getD (L - 2) ' ']) with
          | none => .ok none
          | some mEnc =>
            match datetime_fromtimestamp e (sign * hEnc) (sign * mEnc) with
            | .error .valueError => .ok none
            | .error err => .error err
            | .ok dt =>
              if e > now then .ok none
              else .ok (some dt)
  | _ => .error .valueError

/-- The Python `str.strip()` whitespace set: space, tab, newline, vertical
tab, form feed, carriage return. -/
def isPyWs (c : Char) : Bool :=
  c = ' ' || c = '\t' || c = '\n' || c = '\x0b' || c = '\x0c' || c = '\r'

/-- Embeds Python `s.strip()`: drop leading and trailing whitespace. -/
def pyStrip (s : String) : String :=
  String.mk (((s.data.dropWhile isPyWs).reverse.dropWhile isPyWs).reverse)

/-- The attributes `Commit.__getattr__` (oscar.py 712-795) computes from the
commit content; fields start as `None` (oscar.py 744-745). -/
structure CommitAttrs where
  tree : Option String := none
  parent_shas : List String := []
  message : Option String := none
  full_message : Option String := none
  author : Option String := none
  authored_at : Option PyDateTime := none
  committer : Option String := none
  committed_at : Option PyDateTime := none
  signature : Option String := none
deriving Repr, DecidableEq

/-- Embeds the header loop of `Commit.__getattr__` (oscar.py 749-793):
signature accumulation, continuation and blank-line skipping, then
`key, value = line.split(" ", 1)` dispatch.  A line with no space raises
`ValueError` (oscar.py 770-773); `parse_commit_date` errors propagate; the
`tree` branch constructs `Tree(value)` eagerly (oscar.py 776), so a
malformed sha value raises `ValueError`/`TypeError` out of
`Commit.__getattr__` (no caller catches either). -/
def commitHeaderLoop (now : Int) :
    List String → Bool → String → CommitAttrs → Except PyErr CommitAttrs
  | [], _, _, st => .ok st
  | line :: rest, true, sig, st =>
    let sig2 := sig ++ line
    if pyStrip line = "-----END PGP SIGNATURE-----" then
      commitHeaderLoop now rest false sig2 { st with signature := some sig2 }
    else
      commitHeaderLoop now rest true sig2 st
  | line :: rest, false, sig, st =>
    if pyStartsWith line " " then
      commitHeaderLoop now rest false sig st
    else
      let l := pyStrip line
      if l = "" then
        commitHeaderLoop now rest false sig st
      else
        match pySplitOnce l " " with
        | none => .error .valueError
        | some kv =>
          let key := kv.1
          let value := kv.2
          if key = "tree" then
            match gitObjectInitE value with
            | .error e => .error e
            | .ok obj =>
              commitHeaderLoop now rest false sig { st with tree := some obj.sha }
          else if key = "parent" then
            commitHeaderLoop now rest false sig
              { st with parent_shas := st.parent_shas ++ [value] }
          else if key = "author" then
            let chunks := pyRsplit2 value
            match parse_commit_date (String.intercalate " " chunks.tail) now with
            | .error e => .error e
            | .ok d =>
              commitHeaderLoop now rest false sig
                { st with author := some (chunks.headD ""), authored_at := d }
          else if key = "committer" then
            let chunks := pyRsplit2 value
            match parse_commit_date (String.intercalate " " chunks.tail) now with
            | .error e => .error e
            | .ok d =>
              commitHeaderLoop now rest false sig
                { st with committer := some (chunks.headD ""), committed_at := d }
          else if key = "gpgsig" then
            commitHeaderLoop now rest true value st
          else
            commitHeaderLoop now rest false sig st

/-- Embeds `Commit.__getattr__` (oscar.py 712-795) applied to the commit
content `data`: split once on `"\n\n"` into header and message (raising
`ValueError` when there is no blank line, as `self.header, self.full_message
= self.data.split("\n\n", 1)` unpacks two values), then run the header
loop. -/
def commitAttrsOf (now : Int) (data : String) : Except PyErr CommitAttrs :=
  match pySplitOnce data "\n\n" with
  | none => .error .valueError
  | some hm =>
    let base : CommitAttrs :=
      { full_message := some hm.2,
        message := some (((pySplit hm.2 "\n").headD "")) }
    commitHeaderLoop now (pySplit hm.1 "\n") false "" base

/-- A commit store: sha to commit content (the result of
`decomp(read_tch('commit_random', ...))` for stored commits).  An absent sha
makes `read_tch` return `None` and `decomp(None)` return `""`, so the lookup
defaults to the empty string. -/
def commitDataOf (store : List (String × String)) (sha : String) : String :=
  ((store.find? (fun p => p.1 == sha)).map (fun p => p.2)).getD ""

/-- Embeds the shared loop of `Project.__iter__` (oscar.py 1058-1075) and
`File.commits` (oscar.py 1290-1310) over a list of commit shas: for each sha
construct `Commit(sha)` (raising `ValueError`/`TypeError` on an invalid sha)
and read its `.author`; `ObjectNotFound` skips the sha (`continue`), any
other exception propagates, and commits authored by the GitHub merge button
are dropped.  (The two methods differ only in whether the construction is
inside the `try`; it can never raise the caught `ObjectNotFound`, so the
placement is immaterial.)  The commit store is keyed here by the sha string
passed to the constructor; the program reads `commit_random` by `bin_sha`,
a bijective relabelling for the shas that pass construction.  The result is
the list of yielded commit shas. -/
def iterCommitShas (now : Int) (store : List (String × String)) :
    List String → Except PyErr (List String)
  | [] => .ok []
  | sha :: rest =>
    match gitObjectInitE sha with
    | .error e => .error e
    | .ok _ =>
      match commitAttrsOf now (commitDataOf store sha) with
      | .error .objectNotFound => iterCommitShas now store rest
      | .error e => .error e
      | .ok st =>
        match iterCommitShas now store rest with
        | .error e => .error e
        | .ok tail =>
          if st.author ≠ some "GitHub Merge Button <merge-button@github.com>" then
            .ok (sha :: tail)
          else
            .ok tail

/-- A tree entry `(mode, filename, sha)` as yielded by `Tree.__iter__`
(oscar.py 568-602): mode and name are strings, the sha is 40-char hex. -/
abbrev TreeEntry := String × String × String

/-- A tree store: sha to parsed entry list.  A sha absent from the random
access hash makes `read_tch` return `None`, `decomp(None)` return `""` and
`Tree.__iter__` yield nothing, so the lookup defaults to `[]`. -/
def treeEntriesOf (store : List (String × List TreeEntry)) (sha : String) : List TreeEntry :=
  ((store.find? (fun p => p.1 == sha)).map (fun p => p.2)).getD []

/-- One level of `Tree.traverse` (oscar.py 617-637): yield each entry, and
after an entry of mode `"40000"` the recursive traversal of the child tree
with the child path prefixed by `fname + '/'`.  `rec` is the recursive
traversal at the next depth; `none` means the recursion bound was
exceeded. -/
def traverseEntries (rec : String → Option (List TreeEntry)) :
    List TreeEntry → Option (List TreeEntry)
  | [] => some []
  | (mode, fname, sha) :: rest =>
    if mode = "40000" then
      match rec sha with
      | none => none
      | some sub =>
        match traverseEntries rec rest with
        | none => none
        | some tail =>
          some ((mode, fname, sha) ::
            (sub.map (fun e => (e.1, fname ++ "/" ++ e.2.1, e.2.2)) ++ tail))
    else
      match traverseEntries rec rest with
      | none => none
      | some tail => some ((mode, fname, sha) :: tail)

/-- `Tree.traverse` (oscar.py 617-637) bounded by a recursion depth `fuel`:
the Python generator recurses with no cycle check, so a derivation deeper
than any finite bound means the Python call never finishes (it recurses until
the interpreter dies).  `none` means the bound was exceeded. -/
def traverseFuel (store : List (String × List TreeEntry)) :
    Nat → String → Option (List TreeEntry)
  | 0, _ => none
  | fuel + 1, sha => traverseEntries (traverseFuel store fuel) (treeEntriesOf store sha)

/-- `Tree.traverse` on `store` started at `root` exceeds every recursion
bound, i.e. the Python generator diverges instead of terminating. -/
def traverseDiverges (store : List (String × List TreeEntry)) (root : String) : Prop :=
  ∀ fuel, traverseFuel store fuel root = none

instance {ε α : Type} [DecidableEq ε] [DecidableEq α] : DecidableEq (Except ε α)
  | .ok a, .ok b =>
    if h : a = b then .isTrue (by rw [h]) else .isFalse (by intro hc; cases hc; exact h rfl)
  | .ok _, .error _ => .isFalse (by intro hc; cases hc)
  | .error _, .ok _ => .isFalse (by intro hc; cases hc)
  | .error e, .error f =>
    if h : e = f then .isTrue (by rw [h]) else .isFalse (by intro hc; cases hc; exact h rfl)

/-- The 40-hex sha used in the `GitObject.__init__` doctest (oscar.py 383). -/
def shaHexExample : String := "05cf84081b63cda822ee407e688269b494a642de"

/-- Its 20-byte binary form, `shaHexExample.decode('hex')`. -/
def binShaExample : String := String.mk ((decodeHexList shaHexExample.data).getD [])

/-- A one-tree store whose only tree lists itself as a mode-40000 subtree:
the smallest cyclic tree graph. -/
def cyclicTreeStore : List (String × List TreeEntry) :=
  [("a1b2", [("40000", "dir", "a1b2")])]

/-- A two-level acyclic tree store used to instantiate the termination
theorem. -/
def acyclicTreeStoreW : List (String × List TreeEntry) :=
  [("r", [("100644", "f", "b1"), ("40000", "d", "s")]),
   ("s", [("100644", "g", "b2")])]

/-- A rank decreasing along the subtree edges of `acyclicTreeStoreW`. -/
def rankW : String → Nat :=
  fun sha => if sha = "r" then 1 else 0

/-- A two-commit store: an ordinary commit and one authored by the GitHub
merge button. -/
def commitStoreW : List (String × String) :=
  [("05cf84081b63cda822ee407e688269b494a642de",
    "author Bob <b@x> 100 +0000\n\nm"),
   ("f2a7fcdc51450ab03cb364415f14e634fa69b62c",
    "author GitHub Merge Button <merge-button@github.com> 100 +0000\n\nm")]

/-- The commits `Project.__iter__` / `File.commits` actually keep: those
whose content parses and whose author is not the GitHub merge button. -/
def keptCommitSha (now : Int) (store : List (String × String)) (sha : String) : Bool :=
  match commitAttrsOf now (commitDataOf store sha) with
  | .ok st => decide (st.author ≠ some "GitHub Merge Button <merge-button@github.com>")
  | .error _ => false

/-- C1: constructing a git object from a 40-hex sha and from its 20-byte
binary form yields the same `.sha` and `.bin_sha`, but the two objects are
NOT equal under `_Base.__eq__`: `_Base.__init__` is called with the raw
constructor argument and overwrites `self.key` with it, so the keys (and
therefore equality and `hash(self.key)`) differ between the two forms. -/
theorem gitObject_hex_bin_identity_eval :
    (gitObjectInit shaHexExample).map GitObjectRepr.sha = some shaHexExample ∧
    (gitObjectInit binShaExample).map GitObjectRepr.sha = some shaHexExample ∧
    (gitObjectInit shaHexExample).map GitObjectRepr.bin_sha = some binShaExample ∧
    (gitObjectInit binShaExample).map GitObjectRepr.bin_sha = some binShaExample ∧
    (gitObjectInit shaHexExample).map GitObjectRepr.key = some shaHexExample ∧
    (gitObjectInit binShaExample).map GitObjectRepr.key = some binShaExample ∧
    ((gitObjectInit shaHexExample).bind fun a =>
      (gitObjectInit binShaExample).map fun b => baseEq a b) = some false := by
  decide

/-- C2: for a key absent from the backing store `read_tch` returns `None`;
every `slice20`-based relation accessor then returns the empty tuple and
every semicolon-list accessor returns the empty tuple (via `decomp(None) =
""`), but `Blob.position` raises `TypeError` (from `unber(None)`), not the
intended `ObjectNotFound`: the `except ValueError` handler that converts the
miss never fires because `read_tch` no longer raises. -/
theorem absent_key_accessors_eval :
    blobCommitShas none = [] ∧ commitChildShas none = [] ∧
    projectCommitShas none = [] ∧ authorCommitShas none = [] ∧
    fileCommitShas none = [] ∧
    (∀ lzfD, commitProjectNames lzfD none = .ok [] ∧
      commitChangedFileNames lzfD none = .ok [] ∧
      commitFiles lzfD none = .ok [] ∧
      projectAuthorNames lzfD none = .ok [] ∧
      authorProjectNames lzfD none = .ok []) ∧
    blobPosition none = .error .typeError := by
  refine ⟨rfl, rfl, rfl, rfl, rfl, fun lzfD => ⟨rfl, rfl, rfl, rfl, rfl⟩, rfl⟩

/-- C3: the `PATHS` entries named `tree_sequential_idx` / `tree_sequential_bin`
hold the BLOB path templates, so `Tree.all()` opens
`/data/All.blobs/blob_{k}.idx` and `/data/All.blobs/blob_{k}.bin` for every
shard, not the `tree_{k}` files the spec table gives (shown here at shard 5,
with the 7-bit prefix length giving shards 0..127). -/
theorem treeAll_reads_blob_paths_eval :
    PATHS.lookup "tree_sequential_idx" = some ("/data/All.blobs/blob_{key}.idx", 7) ∧
    PATHS.lookup "tree_sequential_bin" = some ("/data/All.blobs/blob_{key}.bin", 7) ∧
    gitAllShardPaths "tree" 5 = some ("/data/All.blobs/blob_5.idx", "/data/All.blobs/blob_5.bin") ∧
    "/data/All.blobs/blob_{key}.idx" ≠ "/data/All.blobs/tree_{key}.idx" := by
  decide

/-- C4 counterexample: on the input `[0x83]`, whose last (only) byte has its
high bit set, `unber` does not fail at all: the Python function contains no
`raise` and simply discards the incomplete trailing value, returning the
empty list, so the claimed `MalformedBER` failure does not exist. -/
theorem unber_trailing_high_bit_cex :
    unber "\x83" = [] ∧ (0x83 : Nat) &&& 0x80 ≠ 0 := by
  decide

/-- Processing a trailing high-bit byte never emits a value: only a byte
with a clear high bit appends to the result. -/
theorem unberLoop_append_high (l : List Char) (b : Char)
    (hb : b.toNat &&& 0x80 ≠ 0) :
    ∀ acc, unberLoop acc (l ++ [b]) = unberLoop acc l := by
  induction l with
  | nil =>
    intro acc
    simp [unberLoop, hb]
  | cons c rest ih =>
    intro acc
    simp only [List.cons_append, unberLoop]
    split <;> simp [ih]

/-- C4: `unber` decodes the spec's literal examples correctly, and on an
input whose last byte has its high bit set it silently drops the pending
incomplete value instead of failing: appending such a byte never changes the
result. -/
theorem unber_decode_amended :
    unber "\x00\x83M" = [0, 461] ∧ unber "\x83M\x96\x14" = [461, 2836] ∧
    ∀ (s : String) (b : Char), b.toNat &&& 0x80 ≠ 0 → unber (s.push b) = unber s := by
  refine ⟨by decide, by decide, fun s b hb => ?_⟩
  show unberLoop 0 (s.data ++ [b]) = unberLoop 0 s.data
  exact unberLoop_append_high s.data b hb 0

/-- C4 witness: the amended theorem applied at `s = "\x00"`, `b = 0x83`. -/
theorem unber_decode_amended_witness :
    unber ("\x00".push '\x83') = unber "\x00" :=
  unber_decode_amended.2.2 "\x00" '\x83' (by decide)

/-- C5: `lzf_length` returns `(header_size, uncompressed_size)` as computed
by the mask-based variable-length header scan; on the spec's literal inputs
it returns `(2, 283)` and `(3, 7145)`. -/
theorem lzf_length_spec_values :
    lzf_length "\xC4\x9B" = .ok (2, 283) ∧ lzf_length "\xE1\xAF\xA9" = .ok (3, 7145) := by
  decide

/-- C6 counterexample: for `sourceforge.net_tes_tproj` the final
`p_name.replace('_', '/', 1)` (oscar.py 1243) also runs on the matched
branch, turning the underscore of `tes_tproj` into a slash, so the URL is
not the claimed `https://git.code.sf.net/p/tes_tproj`. -/
theorem toURL_sourceforge_cex :
    toURL "sourceforge.net_tes_tproj" = "https://git.code.sf.net/p/tes/tproj" ∧
    "https://git.code.sf.net/p/tes/tproj" ≠ "https://git.code.sf.net/p/tes_tproj" := by
  decide

/-- C6: `drupal.com_testproj` has no matching prefix (it has only one
underscore, and `drupal.com` is not matched without two), so it falls
through to GitHub with the first underscore becoming a slash;
`sourceforge.net_tes_tproj` maps to `git.code.sf.net/p/` but the first
remaining underscore also becomes a slash; and every returned URL starts
with `https://`. -/
theorem toURL_mapping_amended :
    toURL "drupal.com_testproj" = "https://github.com/drupal.com/testproj" ∧
    toURL "sourceforge.net_tes_tproj" = "https://git.code.sf.net/p/tes/tproj" ∧
    ∀ uri, ∃ rest, toURL uri = "https://" ++ rest := by
  refine ⟨by decide, by decide, fun uri => ⟨_, rfl⟩⟩

/-- C7 counterexample: `Commit.changed_file_names` (oscar.py 955-958) does
not filter the split at all, so a stored value `"EMPTY"` is returned as a
real entry. -/
theorem changed_file_names_empty_sentinel_cex :
    commitChangedFileNamesOf "EMPTY" = ["EMPTY"] ∧
    "EMPTY" ∈ commitChangedFileNamesOf "EMPTY" := by
  decide

/-- C7: the filtered semicolon-list accessors (`Commit.project_names`,
`Commit.files`, `Project.author_names`, `Author.project_names`) never yield
the `EMPTY` sentinel, whatever the stored value; `Commit.changed_file_names`
is the exception (see the counterexample). -/
theorem semicolon_accessors_no_empty_sentinel :
    ∀ data : String, "EMPTY" ∉ commitProjectNamesOf data ∧
      "EMPTY" ∉ commitFilesOf data ∧
      "EMPTY" ∉ projectAuthorNamesOf data ∧
      "EMPTY" ∉ authorProjectNamesOf data := by
  intro data
  refine ⟨?_, ?_, ?_, ?_⟩ <;>
    · intro h
      simp [commitProjectNamesOf, commitFilesOf, projectAuthorNamesOf,
        authorProjectNamesOf, List.mem_filter] at h

/-- C8 counterexample: for the zone `+0530` the parsed offset minutes are 3,
not 30: `minutes = sign * int(tz[-2])` reads only the single tens digit of
`MM` (oscar.py 232). -/
theorem parse_commit_date_minutes_cex :
    parse_commit_date "1337145807 +0530" 2000000000 =
      .ok (some ⟨1337145807, 5, 3⟩) ∧
    ((3 : Int) ≠ 30) := by
  decide

/-- A non-empty all-digit string is parsed by `pyInt` as its decimal value. -/
theorem pyInt_digits (l : List Char) (h0 : l ≠ []) (hd : l.all Char.isDigit = true) :
    pyInt (String.mk l) = some ((l.foldl (fun a c => 10 * a + (c.toNat - 48)) 0 : Nat) : Int) := by
  obtain ⟨a, rest, rfl⟩ : ∃ a rest, l = a :: rest := by
    cases l with
    | nil => exact absurd rfl h0
    | cons a rest => exact ⟨a, rest, rfl⟩
  have ha : a.isDigit = true := by
    simp [List.all_cons] at hd
    exact hd.1
  have hm : a ≠ '-' := by
    intro h; rw [h] at ha; simp [Char.isDigit] at ha
  have hp : a ≠ '+' := by
    intro h; rw [h] at ha; simp [Char.isDigit] at ha
  simp only [pyInt]
  split
  · next heq =>
    exact absurd (List.head_eq_of_cons_eq heq) hm
  · next heq =>
    exact absurd (List.head_eq_of_cons_eq heq) hp
  · simp [digitsVal, hd]

/-- The embedded `fromtimestamp` succeeds exactly when the epoch, the
offset, and their sum are within datetime's documented bounds. -/
theorem datetime_fromtimestamp_ok (e tzh tzm : Int)
    (hoffb : -1440 < 60 * tzh + tzm ∧ 60 * tzh + tzm < 1440)
    (heb : -62135596800 ≤ e ∧ e ≤ 253402300799)
    (hsb : -62135596800 ≤ e + 60 * (60 * tzh + tzm) ∧
      e + 60 * (60 * tzh + tzm) ≤ 253402300799) :
    datetime_fromtimestamp e tzh tzm = .ok ⟨e, tzh, tzm⟩ := by
  unfold datetime_fromtimestamp
  rw [if_neg (by omega), if_neg (by omega), if_neg (by omega)]

/-- C8: for a two-token timestamp whose zone is a sign followed by four
characters with the first three being digits `H1 H2 M1` (the fourth, the
units digit of `MM`, is never read), a numeric epoch that is no later than
the wall clock and within datetime's accepted range (together with the
offset-shifted value, so that `datetime.fromtimestamp` succeeds) parses to a
datetime whose offset is `sign * (10*H1 + H2)` hours and `sign * M1` minutes
— the minutes keep only the tens digit of `MM` as a one-digit value.  A
non-numeric epoch or zone gives `None` (the `except ValueError` branch), as
do a future epoch, an epoch outside `0001-01-01 .. 9999-12-31` UTC, and a
zone offset of 24 hours or more (both `ValueError`s from
`datetime.fromtimestamp`, raised inside the `try`). -/
theorem parse_commit_date_zone_amended (timestamp ts : String) (now e : Int) (neg : Bool)
    (c1 c2 c3 c4 : Char)
    (hsplit : pySplitWs timestamp = [ts, String.mk [(if neg then '-' else '+'), c1, c2, c3, c4]])
    (hts : pyInt ts = some e)
    (h1 : c1.isDigit = true) (h2 : c2.isDigit = true) (h3 : c3.isDigit = true)
    (hoff : 60 * (10 * (c1.toNat - 48) + (c2.toNat - 48)) + (c3.toNat - 48) < 1440)
    (hlo : -62135596800 ≤
      e - 60 * ((60 * (10 * (c1.toNat - 48) + (c2.toNat - 48)) + (c3.toNat - 48) : Nat) : Int))
    (hhi : e + 60 * ((60 * (10 * (c1.toNat - 48) + (c2.toNat - 48)) + (c3.toNat - 48) : Nat) : Int) ≤
      253402300799)
    (hnow : e ≤ now) :
    parse_commit_date timestamp now =
      .ok (some ⟨e,
        (if neg then -1 else 1) * ((10 * (c1.toNat - 48) + (c2.toNat - 48) : Nat) : Int),
        (if neg then -1 else 1) * ((c3.toNat - 48 : Nat) : Int)⟩) := by
  have h12 : pyInt (String.mk [c1, c2]) =
      some ((10 * (c1.toNat - 48) + (c2.toNat - 48) : Nat) : Int) := by
    rw [pyInt_digits [c1, c2] (by simp) (by simp [h1, h2])]
    norm_num
  have h3v : pyInt (String.mk [c3]) = some ((c3.toNat - 48 : Nat) : Int) := by
    rw [pyInt_digits [c3] (by simp) (by simp [h3])]
    norm_num
  have hfut : ¬ (e > now) := by omega
  cases neg with
  | false =>
    simp [parse_commit_date, hsplit, hts, pyStartsWith, List.isPrefixOf, h12, h3v]
    rw [datetime_fromtimestamp_ok]
    · simp [hfut]
    · omega
    · omega
    · omega
  | true =>
    simp [parse_commit_date, hsplit, hts, pyStartsWith, List.isPrefixOf, h12, h3v]
    rw [datetime_fromtimestamp_ok]
    · simp [hfut]
    · omega
    · omega
    · omega

/-- C8 witness: the amended theorem applied to the doctest input
`'1337145807 +1100'` (oscar.py 223-224). -/
theorem parse_commit_date_zone_amended_witness :
    parse_commit_date "1337145807 +1100" 2000000000 = .ok (some ⟨1337145807, 11, 0⟩) := by
  have h := parse_commit_date_zone_amended "1337145807 +1100" "1337145807"
    2000000000 1337145807 false '1' '1' '0' '0'
    (by decide) (by decide) (by decide) (by decide) (by decide)
    (by decide) (by decide) (by decide) (by decide)
  rw [h]
  decide

/-- C9 counterexample: on the cyclic store the traversal exceeds every
recursion bound, i.e. `Tree.traverse` diverges (the Python generator has no
cycle check and no `CycleDetected` exists anywhere in the code), instead of
terminating or aborting with `CycleDetected`. -/
theorem traverse_cycle_diverges_cex : traverseDiverges cyclicTreeStore "a1b2" := by
  intro fuel
  induction fuel with
  | zero => rfl
  | succ n ih =>
    simp only [traverseFuel]
    rw [show treeEntriesOf cyclicTreeStore "a1b2" = [("40000", "dir", "a1b2")] from rfl]
    simp [traverseEntries, ih]

/-- A traversal level succeeds when the recursive traversal succeeds on
every mode-40000 entry. -/
theorem traverseEntries_isSome (rec : String → Option (List TreeEntry)) (l : List TreeEntry)
    (h : ∀ e ∈ l, e.1 = "40000" → (rec e.2.2).isSome = true) :
    (traverseEntries rec l).isSome = true := by
  induction l with
  | nil => rfl
  | cons e rest ih =>
    obtain ⟨m, n, s⟩ := e
    have htail : (traverseEntries rec rest).isSome = true :=
      ih (fun e he hm => h e (List.mem_cons_of_mem _ he) hm)
    obtain ⟨tail, htl⟩ := Option.isSome_iff_exists.mp htail
    simp only [traverseEntries]
    by_cases hm : m = "40000"
    · have hr := h (m, n, s) (List.mem_cons_self _ _) hm
      obtain ⟨sub, hsub⟩ := Option.isSome_iff_exists.mp hr
      rw [if_pos hm, hsub, htl]
      rfl
    · rw [if_neg hm, htl]
      rfl

/-- C9: `Tree.traverse` yields entries and recursive descendants (the
`traverseFuel` equations) and terminates on every store whose mode-40000
subtree references admit a strictly decreasing rank — in particular on every
acyclic stored tree graph: any recursion bound above the root's rank
suffices.  On a cyclic graph it diverges instead of aborting with
`CycleDetected` (see the counterexample). -/
theorem traverse_acyclic_terminates (store : List (String × List TreeEntry))
    (rank : String → Nat)
    (hrank : ∀ p ∈ store, ∀ e ∈ p.2, e.1 = "40000" → rank e.2.2 < rank p.1)
    (sha : String) (fuel : Nat) (hfuel : rank sha < fuel) :
    (traverseFuel store fuel sha).isSome = true := by
  induction fuel generalizing sha with
  | zero => omega
  | succ n ih =>
    simp only [traverseFuel]
    apply traverseEntries_isSome
    intro e he hm
    unfold treeEntriesOf at he
    cases hf : store.find? (fun p => p.1 == sha) with
    | none => rw [hf] at he; simp at he
    | some p =>
      rw [hf] at he
      simp at he
      have hpmem := List.mem_of_find?_eq_some hf
      have hb := List.find?_some hf
      have hpeq : p.1 = sha := by simpa using hb
      have hlt := hrank p hpmem e he hm
      rw [hpeq] at hlt
      exact ih e.2.2 (by omega)

/-- C9 witness: the termination theorem applied to the concrete acyclic
store with rank `rankW` and bound 2. -/
theorem traverse_acyclic_terminates_witness :
    (traverseFuel acyclicTreeStoreW 2 "r").isSome = true :=
  traverse_acyclic_terminates acyclicTreeStoreW rankW (by decide) "r" 2 (by decide)

/-- C10 counterexample: a commit sha whose content is absent from the store
is NOT skipped: `read_tch` returns `None`, `decomp(None)` returns `""`, and
`"".split("\n\n", 1)` unpacking raises `ValueError`, which the
`except ObjectNotFound` clause does not catch, so iteration fails instead of
yielding the retrievable commits (here: the empty list). -/
theorem iterCommitShas_missing_commit_cex :
    iterCommitShas 1000 [] ["05cf84081b63cda822ee407e688269b494a642de"] = .error .valueError ∧
    (Except.error PyErr.valueError ≠ (.ok [] : Except PyErr (List String))) := by
  decide

/-- C10: when every listed sha is a valid git sha (40 hex or 20 bytes — the
eager `Commit(sha)` construction raises otherwise) and every listed commit's
content is present and parses (including the eager `Tree(value)`
construction for `tree` header lines, which raises on a malformed sha),
`Project.__iter__` (and `File.commits`, which shares the loop) yields
exactly the commits whose author is not
`'GitHub Merge Button <merge-button@github.com>'`; a commit with absent
content does not reach this filter but raises (see the counterexample). -/
theorem iterCommitShas_filters (now : Int) (store : List (String × String))
    (shas : List String)
    (h : ∀ sha ∈ shas, isOkE (gitObjectInitE sha) = true ∧
      isOkE (commitAttrsOf now (commitDataOf store sha)) = true) :
    iterCommitShas now store shas = .ok (shas.filter (keptCommitSha now store)) := by
  induction shas with
  | nil => rfl
  | cons sha rest ih =>
    have hhd := h sha (List.mem_cons_self _ _)
    have htl := ih (fun s hs => h s (List.mem_cons_of_mem _ hs))
    cases hg : gitObjectInitE sha with
    | error e =>
      rw [hg] at hhd
      cases hhd.1
    | ok obj =>
      cases ha : commitAttrsOf now (commitDataOf store sha) with
      | error e =>
        rw [ha] at hhd
        cases hhd.2
      | ok st =>
        simp only [iterCommitShas, hg, ha, htl]
        by_cases hA : st.author = some "GitHub Merge Button <merge-button@github.com>"
        · simp [hA, List.filter_cons, keptCommitSha, ha]
        · simp [hA, List.filter_cons, keptCommitSha, ha]

/-- C10 witness: the filter theorem applied to the two-commit store; the
merge-button commit is dropped, the ordinary one kept. -/
theorem iterCommitShas_filters_witness :
    iterCommitShas 1000 commitStoreW
      ["05cf84081b63cda822ee407e688269b494a642de",
       "f2a7fcdc51450ab03cb364415f14e634fa69b62c"] =
      .ok ["05cf84081b63cda822ee407e688269b494a642de"] := by
  have h := iterCommitShas_filters 1000 commitStoreW
    ["05cf84081b63cda822ee407e688269b494a642de",
     "f2a7fcdc51450ab03cb364415f14e634fa69b62c"] (by decide)
  rw [h]
  decide
